import Mathlib

/-
Verification of the dante-control-rs discovery aggregator and subscription
command codec against its specification.  All definitions are shallow
embeddings of `src/lib.rs`; line references point into that file.
Machine integers are modelled as `Nat` with explicit `% 2 ^ 16` at the
points where the Rust code performs `as u16` casts or `u16` arithmetic.
-/

set_option maxRecDepth 8192

namespace Dante

/-! ## Subscription codec (src/lib.rs lines 28-73, 444-459, 764-927) -/

/-- Embeds `u16::to_be_bytes` applied to the result of a cast to `u16`:
the value is reduced mod 2^16 and split into two big-endian bytes. -/
def u16be (n : Nat) : List Nat :=
  [n % 65536 / 256, n % 256]

/-- Embeds `enum DanteVersion` (lines 28-32). -/
inductive DanteVersion where
  | Dante4_4_1_3
  | Dante4_2_1_3
deriving DecidableEq

/-- Embeds the `command_subscription` field of the two
`DanteVersionCommands` constants (lines 63-73) as selected by
`DanteVersion::get_commands` (lines 47-52). -/
def command_subscription : DanteVersion → List Nat
  | DanteVersion.Dante4_4_1_3 => [0x34, 0x10]
  | DanteVersion.Dante4_2_1_3 => [0x30, 0x10]

/-- Embeds `MakeSubscriptionError` (lines 444-448). -/
inductive MakeSubscriptionError where
  | ConnectionFailed
deriving DecidableEq

/-- Embeds `ClearSubscriptionError` (lines 449-453).  The type is declared
in the source but no function of the crate returns it. -/
inductive ClearSubscriptionError where
  | ConnectionFailed
deriving DecidableEq

/-- Tags naming the two error enums of the crate, used to record which one
appears in a function signature. -/
inductive SubscriptionErrorKind where
  | makeSubscription
  | clearSubscription
deriving DecidableEq

/-- Embeds the return type in the source signature
`pub fn clear_subscription(..) -> Result<(), MakeSubscriptionError>`
(lines 886-891): the error enum used is `MakeSubscriptionError`. -/
def clear_subscription_error_kind : SubscriptionErrorKind :=
  SubscriptionErrorKind.makeSubscription

/-- Embeds `get_new_command_sequence_id` (lines 764-768) under the
release-profile semantics of `u16` addition, where overflow wraps:
returns the current id and the next state of
`current_command_sequence_id`. -/
def get_new_command_sequence_id (seq : Nat) : Nat × Nat :=
  (seq, (seq + 1) % 65536)

/-- Embeds `get_new_command_sequence_id` (lines 764-768) under the
debug-profile semantics of `u16` addition, where `+= 1` panics on
overflow; `none` models the panic. -/
def get_new_command_sequence_id_checked (seq : Nat) : Option (Nat × Nat) :=
  if seq + 1 < 65536 then some (seq, seq + 1) else none

/-- Embeds `make_dante_command` (lines 770-784): magic, length field
(`(command_args.len() + 10) as u16`), sequence id, command code, two
reserved zero bytes, then the payload.  Returns the datagram together
with the updated sequence state consumed by
`get_new_command_sequence_id`. -/
def make_dante_command (seq : Nat) (command : List Nat)
    (command_args : List Nat) : List Nat × Nat :=
  let r := get_new_command_sequence_id seq
  ([0x28, 0x30] ++ u16be (command_args.length + 10) ++ u16be r.1 ++
      command ++ [0x00, 0x00] ++ command_args,
    r.2)

/-- Embeds the `command_buffer` construction of `make_subscription`
(lines 835-874) for both versions.  Channel and device names are the
byte lists produced by `AsciiStr::as_bytes`. -/
def make_subscription_payload (version : DanteVersion) (rx_channel_id : Nat)
    (tx_device tx_channel : List Nat) : List Nat :=
  match version with
  | DanteVersion.Dante4_4_1_3 =>
      [0x00, 0x00, 0x00, 0x00, 0x00, 0x00, 0x08, 0x00, 0x20, 0x01] ++
        u16be rx_channel_id ++
        [0x00, 0x03, 0x01, 0x14] ++
        u16be (276 + tx_channel.length + 1) ++
        List.replicate 248 0x00 ++
        tx_channel ++ [0x00] ++ tx_device ++ [0x00]
  | DanteVersion.Dante4_2_1_3 =>
      [0x10, 0x01] ++
        u16be rx_channel_id ++
        [0x01, 0x4C] ++
        u16be (332 + tx_channel.length + 1) ++
        List.replicate 314 0x00 ++
        tx_channel ++ [0x00] ++ tx_device ++ [0x00]

/-- Embeds the `command_buffer` construction of `clear_subscription`
(lines 892-915) for both versions. -/
def clear_subscription_payload (version : DanteVersion)
    (rx_channel_id : Nat) : List Nat :=
  match version with
  | DanteVersion.Dante4_4_1_3 =>
      [0x00, 0x00, 0x00, 0x00, 0x00, 0x00, 0x08, 0x00, 0x20, 0x01] ++
        u16be rx_channel_id ++
        [0x00, 0x03, 0x00, 0x00, 0x00, 0x00] ++
        List.replicate 248 0x00
  | DanteVersion.Dante4_2_1_3 =>
      [0x10, 0x01] ++ u16be rx_channel_id ++ List.replicate 318 0x00

/-- Embeds the datagram handed by `make_subscription` (lines 876-884) to
`send_bytes_to_address`: the envelope around the subscription payload. -/
def make_subscription_datagram (seq : Nat) (version : DanteVersion)
    (rx_channel_id : Nat) (tx_device tx_channel : List Nat) : List Nat :=
  (make_dante_command seq (command_subscription version)
    (make_subscription_payload version rx_channel_id tx_device tx_channel)).1

/-- Embeds `make_subscription` (lines 822-884).  The UDP send is external
to the program; its outcome is the `sendOk` parameter.  Returns the
caller-visible result together with the next sequence state. -/
def make_subscription (seq : Nat) (version : DanteVersion)
    (rx_channel_id : Nat) (tx_device tx_channel : List Nat)
    (sendOk : Bool) : Except MakeSubscriptionError Unit × Nat :=
  let r := make_dante_command seq (command_subscription version)
    (make_subscription_payload version rx_channel_id tx_device tx_channel)
  (if sendOk then Except.ok () else
    Except.error MakeSubscriptionError.ConnectionFailed,
    r.2)

/-- Embeds `clear_subscription` (lines 886-927).  As in the source, the
error value produced on send failure is
`MakeSubscriptionError::ConnectionFailed`. -/
def clear_subscription (seq : Nat) (version : DanteVersion)
    (rx_channel_id : Nat) (sendOk : Bool) :
    Except MakeSubscriptionError Unit × Nat :=
  let r := make_dante_command seq (command_subscription version)
    (clear_subscription_payload version rx_channel_id)
  (if sendOk then Except.ok () else
    Except.error MakeSubscriptionError.ConnectionFailed,
    r.2)

/-! ## Device registry (src/lib.rs lines 87-427) -/

/-- Embeds `enum DanteDeviceEncoding` (lines 88-92). -/
inductive DanteDeviceEncoding where
  | PCM16
  | PCM24
  | PCM32
deriving DecidableEq

/-- Embeds `DBCInfo` (lines 95-98); IPv4 addresses are quadruples. -/
structure DBCInfo where
  addresses : List (Nat × Nat × Nat × Nat)
  port : Nat
deriving DecidableEq

/-- Embeds `CMCInfo` (lines 101-107). -/
structure CMCInfo where
  addresses : List (Nat × Nat × Nat × Nat)
  port : Nat
  id : String
  manufacturer : String
  model : String
deriving DecidableEq

/-- Embeds `ARCInfo` (lines 110-115). -/
structure ARCInfo where
  addresses : List (Nat × Nat × Nat × Nat)
  port : Nat
  router_vers : String
  router_info : String
deriving DecidableEq

/-- Embeds `CHANInfo` (lines 117-124); `latency` is the nanosecond count
handed to `Duration::from_nanos`. -/
structure CHANInfo where
  name : String
  id : Option Nat
  sample_rate : Option Nat
  encoding : Option DanteDeviceEncoding
  latency : Option Nat
deriving DecidableEq

/-- Embeds `DeviceStatus` (lines 162-168). -/
structure DeviceStatus where
  connected_dbc : Bool
  connected_cmc : Bool
  connected_arc : Bool
  connected_chan : Bool
deriving DecidableEq

/-- Embeds `DeviceStatus::new` (lines 170-179). -/
def DeviceStatus.new : DeviceStatus :=
  ⟨false, false, false, false⟩

/-- Embeds `DeviceDiscoveryCache` (lines 181-186); the `HashSet<CHANInfo>`
is modelled as a list managed with the set's replace-by-id discipline. -/
structure DeviceDiscoveryCache where
  dbc_info : Option DBCInfo
  cmc_info : Option CMCInfo
  arc_info : Option ARCInfo
  chan_info : List CHANInfo
deriving DecidableEq

/-- Embeds `DanteDeviceList` (lines 188-191): the presence map and the
cache map, modelled as association lists. -/
structure DanteDeviceList where
  devices : List (String × DeviceStatus)
  caches : List (String × DeviceDiscoveryCache)
deriving DecidableEq

/-- Embeds `HashMap::contains_key` on an association list. -/
def alContains {α : Type} (l : List (String × α)) (k : String) : Bool :=
  l.any fun p => decide (p.1 = k)

/-- Embeds `HashMap::get` on an association list. -/
def alGet {α : Type} (l : List (String × α)) (k : String) : Option α :=
  (l.find? fun p => decide (p.1 = k)).map Prod.snd

/-- Embeds in-place mutation through `HashMap::get_mut` on an association
list: the value at the key, when present, is rewritten by `f`. -/
def alModify {α : Type} (l : List (String × α)) (k : String)
    (f : α → α) : List (String × α) :=
  l.map fun p => if p.1 = k then (p.1, f p.2) else p

/-- Embeds `HashMap::remove` on an association list. -/
def alRemove {α : Type} (l : List (String × α)) (k : String) :
    List (String × α) :=
  l.filter fun p => !decide (p.1 = k)

/-- Embeds `DeviceNotPresent` (lines 151-160). -/
inductive DeviceNotPresent where
  | mk
deriving DecidableEq

/-- Embeds `DeviceAlreadyPresent` (lines 140-149). -/
inductive DeviceAlreadyPresent where
  | mk
deriving DecidableEq

/-- Embeds `DanteDeviceList::new` (lines 421-426). -/
def DanteDeviceList.new : DanteDeviceList :=
  ⟨[], []⟩

/-- Embeds `add_device` (lines 195-217): error when the device key is
already present; otherwise insert a fresh status, and a fresh cache when
no cache exists for the key. -/
def add_device (s : DanteDeviceList) (name : String) :
    Except DeviceAlreadyPresent DanteDeviceList :=
  if alContains s.devices name then
    Except.error DeviceAlreadyPresent.mk
  else
    Except.ok
      ⟨(name, DeviceStatus.new) :: s.devices,
        if alContains s.caches name then s.caches
        else (name, ⟨none, none, none, []⟩) :: s.caches⟩

/-- Embeds `try_add_device` (lines 219-222): the error is discarded. -/
def try_add_device (s : DanteDeviceList) (name : String) : DanteDeviceList :=
  match add_device s name with
  | Except.ok s' => s'
  | Except.error _ => s

/-- Embeds `device_connected` (lines 224-226). -/
def device_connected (s : DanteDeviceList) (name : String) : Bool :=
  alContains s.devices name

/-- Embeds the shared shape of the four `connect_<cat>` operations
(lines 326-360): `try_add_device` followed by rewriting the status bit
through `get_mut` (which cannot fail after the add). -/
def connect_with (s : DanteDeviceList) (name : String)
    (f : DeviceStatus → DeviceStatus) : DanteDeviceList :=
  let s1 := try_add_device s name
  ⟨alModify s1.devices name f, s1.caches⟩

/-- Embeds `connect_dbc` (lines 326-333). -/
def connect_dbc (s : DanteDeviceList) (name : String) : DanteDeviceList :=
  connect_with s name fun st => { st with connected_dbc := true }

/-- Embeds `connect_cmc` (lines 335-342). -/
def connect_cmc (s : DanteDeviceList) (name : String) : DanteDeviceList :=
  connect_with s name fun st => { st with connected_cmc := true }

/-- Embeds `connect_arc` (lines 344-351). -/
def connect_arc (s : DanteDeviceList) (name : String) : DanteDeviceList :=
  connect_with s name fun st => { st with connected_arc := true }

/-- Embeds `connect_chan` (lines 353-360). -/
def connect_chan (s : DanteDeviceList) (name : String) : DanteDeviceList :=
  connect_with s name fun st => { st with connected_chan := true }

/-- Embeds the shared shape of the four `update_<cat>` operations
(lines 289-324): `caches.get_mut(name).expect(..)` panics when no cache
exists for the key, modelled by `none`; otherwise the cache is rewritten
by `f`. -/
def update_cache (s : DanteDeviceList) (name : String)
    (f : DeviceDiscoveryCache → DeviceDiscoveryCache) :
    Option DanteDeviceList :=
  if alContains s.caches name then
    some ⟨s.devices, alModify s.caches name f⟩
  else none

/-- Embeds `update_dbc` (lines 290-296). -/
def update_dbc (s : DanteDeviceList) (name : String) (info : DBCInfo) :
    Option DanteDeviceList :=
  update_cache s name fun c => { c with dbc_info := some info }

/-- Embeds `update_cmc` (lines 299-305). -/
def update_cmc (s : DanteDeviceList) (name : String) (info : CMCInfo) :
    Option DanteDeviceList :=
  update_cache s name fun c => { c with cmc_info := some info }

/-- Embeds `update_arc` (lines 308-314). -/
def update_arc (s : DanteDeviceList) (name : String) (info : ARCInfo) :
    Option DanteDeviceList :=
  update_cache s name fun c => { c with arc_info := some info }

/-- Embeds `HashSet::replace` on the channel set (line 322), whose
`PartialEq`/`Hash` instances compare `CHANInfo` by `id` alone
(lines 126-138): the incoming record supersedes any record with the same
`id`. -/
def chanReplace (set : List CHANInfo) (info : CHANInfo) : List CHANInfo :=
  info :: set.filter fun c => !decide (c.id = info.id)

/-- Embeds `update_chan` (lines 317-324). -/
def update_chan (s : DanteDeviceList) (name : String) (info : CHANInfo) :
    Option DanteDeviceList :=
  update_cache s name fun c =>
    { c with chan_info := chanReplace c.chan_info info }

/-- Embeds `check_remove` (lines 404-419): error on an unknown name;
otherwise drop the device entry when no presence bit remains set.  The
cache entry is never removed. -/
def check_remove (s : DanteDeviceList) (name : String) :
    Except DeviceNotPresent DanteDeviceList :=
  match alGet s.devices name with
  | some device_status =>
      if !(device_status.connected_dbc || device_status.connected_cmc ||
          device_status.connected_arc || device_status.connected_chan) then
        Except.ok ⟨alRemove s.devices name, s.caches⟩
      else
        Except.ok s
  | none => Except.error DeviceNotPresent.mk

/-- Embeds the shared shape of the four `disconnect_<cat>` operations
(lines 362-400): `get_mut(..).expect(..)` panics when the device is
absent (modelled by `none`), then the bit is cleared and `check_remove`
runs (its `expect` cannot fail since the device is present). -/
def disconnect_with (s : DanteDeviceList) (name : String)
    (f : DeviceStatus → DeviceStatus) : Option DanteDeviceList :=
  if alContains s.devices name then
    match check_remove ⟨alModify s.devices name f, s.caches⟩ name with
    | Except.ok s2 => some s2
    | Except.error _ => none
  else none

/-- Embeds `disconnect_dbc` (lines 362-370). -/
def disconnect_dbc (s : DanteDeviceList) (name : String) :
    Option DanteDeviceList :=
  disconnect_with s name fun st => { st with connected_dbc := false }

/-- Embeds `disconnect_cmc` (lines 372-380). -/
def disconnect_cmc (s : DanteDeviceList) (name : String) :
    Option DanteDeviceList :=
  disconnect_with s name fun st => { st with connected_cmc := false }

/-- Embeds `disconnect_arc` (lines 382-390). -/
def disconnect_arc (s : DanteDeviceList) (name : String) :
    Option DanteDeviceList :=
  disconnect_with s name fun st => { st with connected_arc := false }

/-- Embeds `disconnect_chan` (lines 392-400). -/
def disconnect_chan (s : DanteDeviceList) (name : String) :
    Option DanteDeviceList :=
  disconnect_with s name fun st => { st with connected_chan := false }

/-- Embeds `channel_id_exist` (lines 228-242). -/
def channel_id_exist (s : DanteDeviceList) (device_name : String)
    (chan_id : Nat) : Bool :=
  if !device_connected s device_name then false
  else
    match alGet s.caches device_name with
    | some cache =>
        cache.chan_info.any fun ci =>
          match ci.id with
          | some i => decide (i = chan_id)
          | none => false
    | none => false

/-- Embeds `get_channel_name_from_id` (lines 244-262). -/
def get_channel_name_from_id (s : DanteDeviceList) (device_name : String)
    (chan_id : Nat) : Option String :=
  if !device_connected s device_name then none
  else
    match alGet s.caches device_name with
    | some cache =>
        match cache.chan_info.find? (fun ci =>
            match ci.id with
            | some i => decide (i = chan_id)
            | none => false) with
        | some chan => some chan.name
        | none => none
    | none => none

/-! ## Registry operations as a step relation (for the reachability
invariant of the key sets) -/

/-- One public mutation of the registry, as listed in the claim:
`add_device`, `try_add_device`, the four `connect` operations, the four
`update` operations, the four `disconnect` operations, and
`check_remove`. -/
inductive RegOp where
  | add_device (name : String)
  | try_add_device (name : String)
  | connect_dbc (name : String)
  | connect_cmc (name : String)
  | connect_arc (name : String)
  | connect_chan (name : String)
  | update_dbc (name : String) (info : DBCInfo)
  | update_cmc (name : String) (info : CMCInfo)
  | update_arc (name : String) (info : ARCInfo)
  | update_chan (name : String) (info : CHANInfo)
  | disconnect_dbc (name : String)
  | disconnect_cmc (name : String)
  | disconnect_arc (name : String)
  | disconnect_chan (name : String)
  | check_remove (name : String)
deriving DecidableEq

/-- State transition of one registry operation.  Operations that merely
return a `Result` error leave the state unchanged; an operation whose
source panics (`expect` on a missing entry) yields `none`. -/
def step (s : DanteDeviceList) : RegOp → Option DanteDeviceList
  | RegOp.add_device n =>
      match add_device s n with
      | Except.ok s' => some s'
      | Except.error _ => some s
  | RegOp.try_add_device n => some (try_add_device s n)
  | RegOp.connect_dbc n => some (connect_dbc s n)
  | RegOp.connect_cmc n => some (connect_cmc s n)
  | RegOp.connect_arc n => some (connect_arc s n)
  | RegOp.connect_chan n => some (connect_chan s n)
  | RegOp.update_dbc n info => update_dbc s n info
  | RegOp.update_cmc n info => update_cmc s n info
  | RegOp.update_arc n info => update_arc s n info
  | RegOp.update_chan n info => update_chan s n info
  | RegOp.disconnect_dbc n => disconnect_dbc s n
  | RegOp.disconnect_cmc n => disconnect_cmc s n
  | RegOp.disconnect_arc n => disconnect_arc s n
  | RegOp.disconnect_chan n => disconnect_chan s n
  | RegOp.check_remove n =>
      match check_remove s n with
      | Except.ok s' => some s'
      | Except.error _ => some s

/-- Runs a sequence of registry operations from a state. -/
def run (s : DanteDeviceList) : List RegOp → Option DanteDeviceList
  | [] => some s
  | op :: ops =>
      match step s op with
      | some s' => run s' ops
      | none => none

/-- The invariant of the claim: every key of the presence map is also a
key of the cache map. -/
def keysSubset (s : DanteDeviceList) : Prop :=
  ∀ k, alContains s.devices k = true → alContains s.caches k = true

/-! ## CHAN worker TXT-property handling (src/lib.rs lines 695-740) -/

/-- Parses a non-empty all-decimal-digit character list to its value. -/
def parse_digits (l : List Char) : Option Nat :=
  if l ≠ [] ∧ l.all Char.isDigit then
    some (l.foldl (fun acc c => acc * 10 + (c.toNat - 48)) 0)
  else none

/-- Embeds Rust `str::parse` for an unsigned integer type with maximum
value `bound`: an optional leading plus sign, then one or more decimal
digits, accepted only within range. -/
def parse_unsigned (bound : Nat) (s : String) : Option Nat :=
  let chars :=
    match s.data with
    | '+' :: rest => rest
    | l => l
  match parse_digits chars with
  | some n => if n ≤ bound then some n else none
  | none => none

/-- Embeds `str::parse::<u16>` for the `id` TXT property. -/
def parse_u16 (s : String) : Option Nat :=
  parse_unsigned 65535 s

/-- Embeds `str::parse::<u32>` for the `rate` TXT property. -/
def parse_u32 (s : String) : Option Nat :=
  parse_unsigned 4294967295 s

/-- Embeds `str::parse::<u64>` for the `latency_ns` TXT property. -/
def parse_u64 (s : String) : Option Nat :=
  parse_unsigned 18446744073709551615 s

/-- The TXT properties consumed by the CHAN worker, each absent or a raw
string value. -/
structure ChanTxtProps where
  id : Option String
  rate : Option String
  en : Option String
  latency_ns : Option String
deriving DecidableEq

/-- Embeds the `CHANInfo` construction in the CHAN worker's
`ServiceResolved` arm (lines 705-740): `rate`, `en` and `latency_ns`
degrade to `none` on parse failure, while a present `id` that fails to
parse hits `.expect("Couldn't parse chan service id")`, a panic modelled
by `none`. -/
def chan_resolved_update (chan_name : String) (props : ChanTxtProps) :
    Option CHANInfo :=
  let sample_rate := props.rate.bind parse_u32
  let encoding := props.en.bind fun v =>
    if v = "16" then some DanteDeviceEncoding.PCM16
    else if v = "24" then some DanteDeviceEncoding.PCM24
    else if v = "32" then some DanteDeviceEncoding.PCM32
    else none
  let latency := props.latency_ns.bind parse_u64
  match props.id with
  | none =>
      some ⟨chan_name, none, sample_rate, encoding, latency⟩
  | some v =>
      match parse_u16 v with
      | some n => some ⟨chan_name, some n, sample_rate, encoding, latency⟩
      | none => none

/-! ## Report formatter channel ordering (src/lib.rs lines 1009-1014) -/

/-- Embeds the comparison `x.id.partial_cmp(&y.id).unwrap()` used by
`get_device_descriptions`: the derived `Ord` on `Option<u16>` places
`None` below every `Some`. -/
def chanLe (x y : CHANInfo) : Bool :=
  match x.id, y.id with
  | none, _ => true
  | some _, none => false
  | some a, some b => decide (a ≤ b)

/-- Propositional form of the channel comparison. -/
def chanLeProp (x y : CHANInfo) : Prop :=
  chanLe x y = true

instance : DecidableRel chanLeProp :=
  fun x y => instDecidableEqBool (chanLe x y) true

instance : IsTotal CHANInfo chanLeProp :=
  ⟨by
    intro a b
    unfold chanLeProp chanLe
    cases a.id <;> cases b.id <;> simp
    exact Nat.le_total _ _⟩

instance : IsTrans CHANInfo chanLeProp :=
  ⟨by
    intro a b c hab hbc
    unfold chanLeProp chanLe at *
    cases ha : a.id <;> cases hb : b.id <;> cases hc : c.id <;> simp_all
    omega⟩

/-- Embeds the stable `sort_by` over the collected channel records of one
device (lines 1010-1011).  Rust's `sort_by` is a stable comparison sort,
and a stable sort by a total preorder is uniquely determined, so it is
modelled by the stable insertion sort. -/
def sortChannels (l : List CHANInfo) : List CHANInfo :=
  l.insertionSort chanLeProp

/-- Embeds the order in which channel names are appended to a device
description (lines 1012-1014). -/
def description_channel_names (cache : DeviceDiscoveryCache) : List String :=
  (sortChannels cache.chan_info).map CHANInfo.name

/-! ## Concrete data for witnesses and counterexamples -/

/-- Channel record with a set id, for the sort-order counterexample. -/
def chanDemoA : CHANInfo :=
  ⟨"alpha", some 1, none, none, none⟩

/-- Channel record with an unset id, for the sort-order counterexample. -/
def chanDemoNone : CHANInfo :=
  ⟨"beta", none, none, none, none⟩

/-- Registry holding one cache entry but no presence entry, exercising
the query operations on an absent device. -/
def regDemoStale : DanteDeviceList :=
  ⟨[], [("studio-a", ⟨none, none, none, [⟨"mic1", some 3, none, none, none⟩]⟩)]⟩

/-- Registry holding one present device with an empty channel set. -/
def regDemoDev : DanteDeviceList :=
  ⟨[("studio-a", ⟨true, false, false, false⟩)],
    [("studio-a", ⟨none, none, none, []⟩)]⟩

/-- First channel record of the replacement scenario. -/
def chanDemo1 : CHANInfo :=
  ⟨"mic1", some 3, some 48000, some DanteDeviceEncoding.PCM24, some 1000000⟩

/-- Second channel record of the replacement scenario: same id, new
name. -/
def chanDemo2 : CHANInfo :=
  ⟨"micA", some 3, none, none, none⟩

/-- State after updating `regDemoDev` with `chanDemo1`. -/
def regDemoDev1 : DanteDeviceList :=
  (update_chan regDemoDev "studio-a" chanDemo1).getD DanteDeviceList.new

/-- State after updating `regDemoDev1` with `chanDemo2`. -/
def regDemoDev2 : DanteDeviceList :=
  (update_chan regDemoDev1 "studio-a" chanDemo2).getD DanteDeviceList.new

/-- A sample sequence of registry operations touching every kind of
mutation. -/
def demoOps : List RegOp :=
  [RegOp.connect_dbc "studio-a",
    RegOp.connect_chan "studio-a",
    RegOp.update_dbc "studio-a" ⟨[(10, 0, 0, 1)], 4440⟩,
    RegOp.update_chan "studio-a" ⟨"mic1", some 3, some 48000, some DanteDeviceEncoding.PCM24, some 1000000⟩,
    RegOp.add_device "studio-b",
    RegOp.try_add_device "studio-b",
    RegOp.disconnect_dbc "studio-a",
    RegOp.check_remove "studio-b"]

/-- The state reached by `demoOps` from the empty registry. -/
def regDemoFinal : DanteDeviceList :=
  (run DanteDeviceList.new demoOps).getD DanteDeviceList.new

/-! ## Association-list lemmas -/

theorem alContains_cons {α : Type} (p : String × α) (l : List (String × α))
    (k : String) :
    alContains (p :: l) k = (decide (p.1 = k) || alContains l k) :=
  rfl

theorem alModify_cons {α : Type} (p : String × α) (l : List (String × α))
    (k : String) (f : α → α) :
    alModify (p :: l) k f =
      (if p.1 = k then (p.1, f p.2) else p) :: alModify l k f :=
  rfl

theorem alGet_cons {α : Type} (p : String × α) (l : List (String × α))
    (k : String) :
    alGet (p :: l) k = if p.1 = k then some p.2 else alGet l k := by
  by_cases h : p.1 = k <;> simp [alGet, List.find?_cons, h]

theorem alContains_alModify {α : Type} (l : List (String × α)) (k k' : String)
    (f : α → α) :
    alContains (alModify l k f) k' = alContains l k' := by
  induction l with
  | nil => rfl
  | cons p t ih =>
      rw [alModify_cons, alContains_cons, alContains_cons, ih]
      by_cases h : p.1 = k <;> simp [h]

theorem alGet_alModify {α : Type} (l : List (String × α)) (k : String)
    (f : α → α) :
    alGet (alModify l k f) k = (alGet l k).map f := by
  induction l with
  | nil => rfl
  | cons p t ih =>
      rw [alModify_cons, alGet_cons, alGet_cons]
      by_cases h : p.1 = k <;> simp [h, ih]

theorem alContains_eq_isSome_alGet {α : Type} (l : List (String × α))
    (k : String) :
    alContains l k = (alGet l k).isSome := by
  induction l with
  | nil => rfl
  | cons p t ih =>
      rw [alContains_cons, alGet_cons]
      by_cases h : p.1 = k <;> simp [h, ih]

theorem alContains_alRemove_imp {α : Type} (l : List (String × α))
    (k k' : String) (h : alContains (alRemove l k) k' = true) :
    alContains l k' = true := by
  simp only [alContains, alRemove, List.any_eq_true] at h ⊢
  obtain ⟨x, hx, hpx⟩ := h
  exact ⟨x, List.mem_of_mem_filter hx, hpx⟩

/-! ## Channel-set replacement lemmas -/

theorem chanReplace_filter_eq (l : List CHANInfo) (c : CHANInfo) :
    (chanReplace l c).filter (fun x => decide (x.id = c.id)) = [c] := by
  simp only [chanReplace, List.filter_cons, decide_eq_true_eq, if_true,
    eq_self_iff_true, List.filter_filter]
  simp

theorem chanReplace_chanReplace (l : List CHANInfo) (c1 c2 : CHANInfo)
    (hid : c1.id = c2.id) :
    chanReplace (chanReplace l c1) c2 = chanReplace l c2 := by
  simp only [chanReplace, List.filter_cons, hid, List.filter_filter]
  simp [hid, Bool.and_self]

/-! ## Preservation of the key-set invariant -/

theorem keysSubset_new : keysSubset DanteDeviceList.new := by
  intro k h
  simp [DanteDeviceList.new, alContains] at h

theorem keysSubset_try_add {s : DanteDeviceList} (n : String)
    (h : keysSubset s) : keysSubset (try_add_device s n) := by
  unfold try_add_device add_device
  by_cases hc : alContains s.devices n
  · simp only [hc, if_true]
    exact h
  · simp only [hc, Bool.false_eq_true, if_false]
    intro k hk
    simp only [alContains_cons, Bool.or_eq_true] at hk
    by_cases hnk : n = k
    · subst hnk
      by_cases hcc : alContains s.caches n
      · simp [hcc]
      · simp [hcc, alContains_cons]
    · have hdev : alContains s.devices k = true := by
        rcases hk with hk | hk
        · exact absurd (of_decide_eq_true hk) hnk
        · exact hk
      have hck := h k hdev
      by_cases hcc : alContains s.caches n
      · simp [hcc, hck]
      · simp [hcc, alContains_cons, hck]

theorem keysSubset_connect_with {s : DanteDeviceList} (n : String)
    (f : DeviceStatus → DeviceStatus) (h : keysSubset s) :
    keysSubset (connect_with s n f) := by
  intro k hk
  unfold connect_with at hk ⊢
  dsimp only at hk ⊢
  rw [alContains_alModify] at hk
  exact keysSubset_try_add n h k hk

theorem keysSubset_update_cache {s s' : DanteDeviceList} (n : String)
    (f : DeviceDiscoveryCache → DeviceDiscoveryCache) (h : keysSubset s)
    (hu : update_cache s n f = some s') : keysSubset s' := by
  unfold update_cache at hu
  by_cases hc : alContains s.caches n
  · rw [if_pos hc] at hu
    cases hu
    intro k hk
    dsimp only at hk ⊢
    rw [alContains_alModify]
    exact h k hk
  · rw [if_neg hc] at hu
    cases hu

theorem keysSubset_check_remove {s s' : DanteDeviceList} (n : String)
    (h : keysSubset s) (hcr : check_remove s n = Except.ok s') :
    keysSubset s' := by
  unfold check_remove at hcr
  cases hg : alGet s.devices n with
  | none =>
      rw [hg] at hcr
      dsimp only at hcr
      cases hcr
  | some st =>
      rw [hg] at hcr
      dsimp only at hcr
      split at hcr
      · cases hcr
        intro k hk
        exact h k (alContains_alRemove_imp _ _ _ hk)
      · cases hcr
        exact h

theorem keysSubset_disconnect_with {s s' : DanteDeviceList} (n : String)
    (f : DeviceStatus → DeviceStatus) (h : keysSubset s)
    (hd : disconnect_with s n f = some s') : keysSubset s' := by
  unfold disconnect_with at hd
  by_cases hc : alContains s.devices n
  · rw [if_pos hc] at hd
    have h1 : keysSubset ⟨alModify s.devices n f, s.caches⟩ := by
      intro k hk
      dsimp only at hk ⊢
      rw [alContains_alModify] at hk
      exact h k hk
    cases hcr : check_remove ⟨alModify s.devices n f, s.caches⟩ n with
    | ok s2 =>
        rw [hcr] at hd
        cases hd
        exact keysSubset_check_remove n h1 hcr
    | error e =>
        rw [hcr] at hd
        cases hd
  · rw [if_neg hc] at hd
    cases hd

theorem step_preserves {s s' : DanteDeviceList} {op : RegOp}
    (h : keysSubset s) (hst : step s op = some s') : keysSubset s' := by
  cases op with
  | add_device n =>
      simp only [step] at hst
      cases hadd : add_device s n with
      | ok s1 =>
          rw [hadd] at hst
          dsimp only at hst
          injection hst with he
          have ht : keysSubset (try_add_device s n) := keysSubset_try_add n h
          unfold try_add_device at ht
          rw [hadd] at ht
          dsimp only at ht
          exact he ▸ ht
      | error e =>
          rw [hadd] at hst
          dsimp only at hst
          injection hst with he
          exact he ▸ h
  | try_add_device n =>
      cases hst
      exact keysSubset_try_add n h
  | connect_dbc n =>
      cases hst
      exact keysSubset_connect_with n _ h
  | connect_cmc n =>
      cases hst
      exact keysSubset_connect_with n _ h
  | connect_arc n =>
      cases hst
      exact keysSubset_connect_with n _ h
  | connect_chan n =>
      cases hst
      exact keysSubset_connect_with n _ h
  | update_dbc n info =>
      exact keysSubset_update_cache n _ h hst
  | update_cmc n info =>
      exact keysSubset_update_cache n _ h hst
  | update_arc n info =>
      exact keysSubset_update_cache n _ h hst
  | update_chan n info =>
      exact keysSubset_update_cache n _ h hst
  | disconnect_dbc n =>
      exact keysSubset_disconnect_with n _ h hst
  | disconnect_cmc n =>
      exact keysSubset_disconnect_with n _ h hst
  | disconnect_arc n =>
      exact keysSubset_disconnect_with n _ h hst
  | disconnect_chan n =>
      exact keysSubset_disconnect_with n _ h hst
  | check_remove n =>
      simp only [step] at hst
      cases hcr : check_remove s n with
      | ok s1 =>
          rw [hcr] at hst
          dsimp only at hst
          injection hst with he
          exact he ▸ keysSubset_check_remove n h hcr
      | error e =>
          rw [hcr] at hst
          dsimp only at hst
          injection hst with he
          exact he ▸ h

theorem run_preserves : ∀ (ops : List RegOp) (s0 s : DanteDeviceList),
    keysSubset s0 → run s0 ops = some s → keysSubset s := by
  intro ops
  induction ops with
  | nil =>
      intro s0 s h hr
      cases hr
      exact h
  | cons op ops ih =>
      intro s0 s h hr
      unfold run at hr
      cases hst : step s0 op with
      | none =>
          rw [hst] at hr
          cases hr
      | some s1 =>
          rw [hst] at hr
          exact ih s1 s (step_preserves h hst) hr

/-! ## Claim theorems -/

/-- C3 counterexample: on a CHAN `ServiceResolved` event whose `id` TXT
property is present but non-numeric, the worker does not store a channel
record with `id` unset — the `CHANInfo` construction aborts (the `expect`
panic, modelled by `none`), even though the other properties are
well-formed. -/
theorem chan_id_parse_abort_cex :
    chan_resolved_update "mic1"
        ⟨some "abc", some "48000", some "24", some "1000000"⟩ = none
    ∧ chan_resolved_update "mic1"
        ⟨some "abc", some "48000", some "24", some "1000000"⟩ ≠
      some ⟨"mic1", none, some 48000, some DanteDeviceEncoding.PCM24,
        some 1000000⟩ := by
  decide

/-- C3 (amended): for the `rate`, `en` and `latency_ns` TXT properties a
present value that fails to parse leaves the corresponding field unset
and the worker continues; a present `id` that parses is stored, while a
present `id` that fails to parse as a `u16` aborts the chan worker. -/
theorem chan_txt_parse_leniency : ∀ (name rs es ls : String),
    parse_u32 rs = none →
    es ≠ "16" ∧ es ≠ "24" ∧ es ≠ "32" →
    parse_u64 ls = none →
    chan_resolved_update name ⟨none, some rs, some es, some ls⟩ =
        some ⟨name, none, none, none, none⟩
    ∧ (∀ v n, parse_u16 v = some n →
        chan_resolved_update name ⟨some v, some rs, some es, some ls⟩ =
          some ⟨name, some n, none, none, none⟩)
    ∧ (∀ v, parse_u16 v = none →
        chan_resolved_update name ⟨some v, some rs, some es, some ls⟩ =
          none) := by
  intro name rs es ls hr he hl
  refine ⟨?_, ?_, ?_⟩
  · simp [chan_resolved_update, hr, hl, he.1, he.2.1, he.2.2]
  · intro v n hv
    simp [chan_resolved_update, hv, hr, hl, he.1, he.2.1, he.2.2]
  · intro v hv
    simp [chan_resolved_update, hv]

/-- C3 witness: a concrete unparseable `rate`, `en` and `latency_ns`
degrade to unset fields without aborting. -/
theorem chan_txt_parse_leniency_witness :
    parse_u32 "abc" = none
    ∧ chan_resolved_update "mic1" ⟨none, some "abc", some "48", some "xyz"⟩ =
        some ⟨"mic1", none, none, none, none⟩ :=
  ⟨by decide,
    (chan_txt_parse_leniency "mic1" "abc" "48" "xyz" (by decide) (by decide)
      (by decide)).1⟩

/-- C4: sequence numbers start at 0 and successive ids differ by 1 mod
2^16 under wrapping semantics, but the increment `+= 1` is not a wrapping
add: under the overflow-checked semantics that Rust applies in default
debug builds, requesting the id after 65535 panics rather than wrapping,
so the code does not ensure that overflow is non-fatal. -/
theorem sequence_overflow_behaviour :
    get_new_command_sequence_id_checked 65535 = none
    ∧ (get_new_command_sequence_id 65535).1 = 65535
    ∧ (get_new_command_sequence_id 65535).2 = 0
    ∧ (get_new_command_sequence_id 0).1 = 0
    ∧ (get_new_command_sequence_id 0).2 = 1 := by
  decide

/-- C5 counterexample: channels whose `id` is unset sort first, not last:
the derived ordering on `Option<u16>` used by `get_device_descriptions`
places `None` below every `Some`. -/
theorem channels_none_first_cex :
    chanDemoNone.id = none
    ∧ chanDemoA.id = some 1
    ∧ description_channel_names ⟨none, none, none, [chanDemoA, chanDemoNone]⟩ =
        ["beta", "alpha"]
    ∧ description_channel_names ⟨none, none, none, [chanDemoA, chanDemoNone]⟩ ≠
        ["alpha", "beta"] := by
  decide

/-- C5 (amended): in every device description the channels appear sorted
ascending by `id` with unset (`None`) ids ordered first (Rust's
`Option` ordering), the sorted output is a permutation of the channel
set, and the sort is stable: any chain already in order keeps its
relative order. -/
theorem channels_sort_order : ∀ l : List CHANInfo,
    List.Sorted chanLeProp (sortChannels l)
    ∧ (sortChannels l).Perm l
    ∧ ∀ c : List CHANInfo, c.Pairwise chanLeProp → c.Sublist l →
        c.Sublist (sortChannels l) := by
  intro l
  refine ⟨List.sorted_insertionSort chanLeProp l,
    List.perm_insertionSort chanLeProp l, ?_⟩
  intro c hp hs
  exact List.sublist_insertionSort hp hs

/-- C5 witness: the stability conjunct applied to a concrete ordered
chain of the two demo channels. -/
theorem channels_sort_order_witness :
    [chanDemoNone, chanDemoA].Pairwise chanLeProp
    ∧ [chanDemoNone, chanDemoA].Sublist [chanDemoA, chanDemoNone, chanDemoA]
    ∧ [chanDemoNone, chanDemoA].Sublist
        (sortChannels [chanDemoA, chanDemoNone, chanDemoA]) :=
  ⟨by simp [chanLeProp, chanDemoNone, chanDemoA, chanLe],
    (List.Sublist.cons chanDemoA
      (List.Sublist.refl [chanDemoNone, chanDemoA])),
    (channels_sort_order [chanDemoA, chanDemoNone, chanDemoA]).2.2
      [chanDemoNone, chanDemoA]
      (by simp [chanLeProp, chanDemoNone, chanDemoA, chanLe])
      (List.Sublist.cons chanDemoA
        (List.Sublist.refl [chanDemoNone, chanDemoA]))⟩

/-- C6: two successive `update_chan` calls with records of equal `id`
leave the channel set containing exactly the second record for that id,
and the resulting set is the same as if only the second record had been
inserted (the second record, name included, replaces the first). -/
theorem update_chan_replace : ∀ (s s1 s2 : DanteDeviceList) (d : String)
    (c1 c2 : CHANInfo),
    c1.id = c2.id →
    update_chan s d c1 = some s1 →
    update_chan s1 d c2 = some s2 →
    (alGet s2.caches d).map
        (fun cache => cache.chan_info.filter fun x => decide (x.id = c2.id)) =
      some [c2]
    ∧ (alGet s2.caches d).map DeviceDiscoveryCache.chan_info =
      (alGet s.caches d).map (fun cache => chanReplace cache.chan_info c2) := by
  intro s s1 s2 d c1 c2 hid h1 h2
  unfold update_chan update_cache at h1 h2
  by_cases hc1 : alContains s.caches d
  · rw [if_pos hc1] at h1
    cases h1
    dsimp only at h2
    split at h2
    · cases h2
      dsimp only
      rw [alGet_alModify, alGet_alModify]
      obtain ⟨cache0, hc0⟩ :=
        Option.isSome_iff_exists.mp ((alContains_eq_isSome_alGet _ _) ▸ hc1)
      rw [hc0]
      constructor
      · simp [chanReplace_filter_eq]
      · simp [chanReplace_chanReplace _ _ _ hid]
    · rename_i hfalse
      rw [alContains_alModify] at hfalse
      exact absurd hc1 hfalse
  · rw [if_neg hc1] at h1
    cases h1

/-- C6 witness: replacing the channel record with id 3 of the demo
device leaves exactly the renamed record. -/
theorem update_chan_replace_witness :
    chanDemo1.id = chanDemo2.id
    ∧ (alGet regDemoDev2.caches "studio-a").map
        (fun cache => cache.chan_info.filter fun x =>
          decide (x.id = chanDemo2.id)) = some [chanDemo2] :=
  ⟨by decide,
    (update_chan_replace regDemoDev regDemoDev1 regDemoDev2 "studio-a"
      chanDemo1 chanDemo2 (by decide) (by decide) (by decide)).1⟩

/-- C8 counterexample: the error enum in the signature of
`clear_subscription` is `MakeSubscriptionError`, not the distinct
declared-but-unused `ClearSubscriptionError`. -/
theorem clear_subscription_error_kind_cex :
    clear_subscription_error_kind = SubscriptionErrorKind.makeSubscription
    ∧ clear_subscription_error_kind ≠ SubscriptionErrorKind.clearSubscription := by
  decide

/-- C8 (amended): when the UDP send in `clear_subscription` fails, the
caller receives `MakeSubscriptionError::ConnectionFailed` — the same
error type `make_subscription` uses, `ClearSubscriptionError` being
declared but never returned — and on success it returns `Ok(())`. -/
theorem clear_subscription_result : ∀ (seq rx : Nat) (v : DanteVersion),
    (clear_subscription seq v rx false).1 =
        Except.error MakeSubscriptionError.ConnectionFailed
    ∧ (clear_subscription seq v rx true).1 = Except.ok () := by
  intro seq rx v
  exact ⟨rfl, rfl⟩

/-- C9: a sequence number is consumed even when the send fails: after a
`make_subscription` or `clear_subscription` call that returns
`ConnectionFailed`, the sequence state has still advanced by 1 mod 2^16,
so the next command does not reuse the failed command's number. -/
theorem sequence_consumed_on_failure : ∀ (seq : Nat) (v : DanteVersion)
    (rx : Nat) (dev ch : List Nat),
    (make_subscription seq v rx dev ch false).1 =
        Except.error MakeSubscriptionError.ConnectionFailed
    ∧ (make_subscription seq v rx dev ch false).2 = (seq + 1) % 65536
    ∧ (clear_subscription seq v rx false).1 =
        Except.error MakeSubscriptionError.ConnectionFailed
    ∧ (clear_subscription seq v rx false).2 = (seq + 1) % 65536 := by
  intro seq v rx dev ch
  exact ⟨rfl, rfl, rfl, rfl⟩

/-- C7: in every state reachable from the empty registry by any sequence
of registry operations, every key of the presence map is also a key of
the cache map. -/
theorem registry_keys_invariant : ∀ (ops : List RegOp) (s : DanteDeviceList),
    run DanteDeviceList.new ops = some s → keysSubset s :=
  fun ops s h => run_preserves ops DanteDeviceList.new s keysSubset_new h

/-- C7 witness: the invariant instantiated at the state reached by a
concrete operation sequence. -/
theorem registry_keys_invariant_witness : keysSubset regDemoFinal :=
  registry_keys_invariant demoOps regDemoFinal (by decide)

/-- C10: `channel_id_exist` returns true exactly when
`get_channel_name_from_id` returns a name, and when the device is absent
from the presence map both report false/none even if a stale cache entry
still holds a channel with the requested id. -/
theorem channel_query_agreement : ∀ (s : DanteDeviceList) (name : String)
    (cid : Nat),
    (channel_id_exist s name cid = true ↔
      (get_channel_name_from_id s name cid).isSome = true)
    ∧ (device_connected s name = false →
        channel_id_exist s name cid = false
        ∧ get_channel_name_from_id s name cid = none) := by
  intro s name cid
  constructor
  · unfold channel_id_exist get_channel_name_from_id
    by_cases hd : device_connected s name
    · simp only [hd, Bool.not_true, Bool.false_eq_true, if_false]
      cases hg : alGet s.caches name with
      | none => simp
      | some cache =>
          have h1 : (cache.chan_info.any fun ci =>
              match ci.id with
              | some i => decide (i = cid)
              | none => false) = true ↔
              (cache.chan_info.find? fun ci =>
                match ci.id with
                | some i => decide (i = cid)
                | none => false).isSome = true :=
            List.any_eq_true.trans List.find?_isSome.symm
          cases hf : cache.chan_info.find? (fun ci =>
              match ci.id with
              | some i => decide (i = cid)
              | none => false) with
          | none =>
              simp only [hf] at h1 ⊢
              simpa using h1
          | some c =>
              simp only [hf] at h1 ⊢
              simpa using h1
    · have hd' : device_connected s name = false := by
        simpa using hd
      simp [hd']
  · intro hd
    unfold channel_id_exist get_channel_name_from_id
    simp [hd]

/-- C10 witness: on a registry whose cache still holds a channel with
id 3 for a device absent from the presence map, both queries report
absence. -/
theorem channel_query_agreement_witness :
    device_connected regDemoStale "studio-a" = false
    ∧ channel_id_exist regDemoStale "studio-a" 3 = false
    ∧ get_channel_name_from_id regDemoStale "studio-a" 3 = none :=
  ⟨by decide, (channel_query_agreement regDemoStale "studio-a" 3).2 (by decide)⟩

/-- C1: every command datagram starts with the magic `28 30`, then the
payload length + 10 as a big-endian u16, then the current sequence
number big-endian, then the version-specific subscription command code,
then `00 00`, with the payload from offset 10; in particular the
v4.4.1.3 `make_subscription` datagram for rx channel 5, device "dev" and
channel "ch" is 283 bytes and opens `28 30 01 1B sss sss 34 10 00 00`. -/
theorem envelope_layout : ∀ (seq : Nat) (v : DanteVersion) (args : List Nat),
    ((make_dante_command seq (command_subscription v) args).1.take 2 =
        [0x28, 0x30]
    ∧ ((make_dante_command seq (command_subscription v) args).1.drop 2).take 2 =
        u16be (args.length + 10)
    ∧ ((make_dante_command seq (command_subscription v) args).1.drop 4).take 2 =
        u16be seq
    ∧ ((make_dante_command seq (command_subscription v) args).1.drop 6).take 2 =
        command_subscription v
    ∧ ((make_dante_command seq (command_subscription v) args).1.drop 8).take 2 =
        [0x00, 0x00]
    ∧ (make_dante_command seq (command_subscription v) args).1.drop 10 = args)
    ∧ ((make_subscription_datagram seq DanteVersion.Dante4_4_1_3 5
          [100, 101, 118] [99, 104]).length = 283
    ∧ (make_subscription_datagram seq DanteVersion.Dante4_4_1_3 5
          [100, 101, 118] [99, 104]).take 4 = [0x28, 0x30, 0x01, 0x1B]
    ∧ ((make_subscription_datagram seq DanteVersion.Dante4_4_1_3 5
          [100, 101, 118] [99, 104]).drop 4).take 2 = u16be seq
    ∧ ((make_subscription_datagram seq DanteVersion.Dante4_4_1_3 5
          [100, 101, 118] [99, 104]).drop 6).take 4 =
        [0x34, 0x10, 0x00, 0x00]) := by
  intro seq v args
  cases v <;> exact ⟨⟨rfl, rfl, rfl, rfl, rfl, rfl⟩, rfl, rfl, rfl, rfl⟩

/-- C2: the v4.4.1.3 subscription payload has length
`266 + len(tx_channel) + 1 + len(tx_device) + 1`; its bytes 16-17 hold
`end_pos = 276 + len(tx_channel) + 1` big-endian, bytes 18-265 are zero,
and from offset 266 the tx channel name, a zero byte, the tx device name
and a zero byte follow; with channel "ch" and device "dev" the payload
length is 273, `end_pos` is 279, and the envelope length field is 283. -/
theorem subscription_payload_v4413_layout : ∀ (rx : Nat)
    (tx_device tx_channel : List Nat),
    (make_subscription_payload DanteVersion.Dante4_4_1_3 rx tx_device
        tx_channel).length =
      266 + tx_channel.length + 1 + tx_device.length + 1
    ∧ ((make_subscription_payload DanteVersion.Dante4_4_1_3 rx tx_device
        tx_channel).drop 16).take 2 = u16be (276 + tx_channel.length + 1)
    ∧ ((make_subscription_payload DanteVersion.Dante4_4_1_3 rx tx_device
        tx_channel).drop 18).take 248 = List.replicate 248 0x00
    ∧ (make_subscription_payload DanteVersion.Dante4_4_1_3 rx tx_device
        tx_channel).drop 266 = tx_channel ++ [0x00] ++ tx_device ++ [0x00]
    ∧ (make_subscription_payload DanteVersion.Dante4_4_1_3 5
        [100, 101, 118] [99, 104]).length = 273
    ∧ ((make_subscription_payload DanteVersion.Dante4_4_1_3 5
        [100, 101, 118] [99, 104]).drop 16).take 2 = [0x01, 0x17]
    ∧ ((make_subscription_datagram 0 DanteVersion.Dante4_4_1_3 5
        [100, 101, 118] [99, 104]).drop 2).take 2 = [0x01, 0x1B] := by
  intro rx tx_device tx_channel
  refine ⟨?_, rfl, rfl, rfl, rfl, rfl, rfl⟩
  simp [make_subscription_payload, u16be, List.length_append]
  omega

end Dante
